import Mathlib

/-!
Shallow embedding of the block-preview core of the chatlab repository:
the PreviewPanel block navigation (src/components/analysis/Filter/PreviewPanel.vue),
the FilterTab token estimate (src/components/analysis/Filter/SessionPanel.vue,
FilterTab segment), and the SessionPanel group selection
(src/components/analysis/Filter/SessionPanel.vue).
-/

/-- A message as consumed by the preview core (the `messages` entries of a
result block in PreviewPanel.vue's `result` prop). -/
structure Message where
  id : Nat
  senderName : String
  senderPlatformId : String
  senderAliases : List String
  senderAvatar : Option String
  content : String
  timestamp : Int
  type : Nat
  replyToMessageId : Option String
  replyToContent : Option String
  replyToSenderName : Option String
  isHit : Bool
deriving DecidableEq, Repr

/-- A contiguous span of messages returned by the external filter service. -/
structure Block where
  startTs : Int
  endTs : Int
  messages : List Message
  hitCount : Nat
deriving DecidableEq, Repr

/-- Aggregate statistics of a filter result. -/
structure Stats where
  totalMessages : Nat
  hitMessages : Nat
  totalChars : Nat
deriving DecidableEq, Repr

/-- The externally supplied filter result (`result` prop of PreviewPanel). -/
structure FilterResult where
  blocks : List Block
  stats : Stats
deriving DecidableEq, Repr

/-- The shape-normalized message handed to the content pane (the object literal
built inside `currentBlockMessages` in PreviewPanel.vue: the `isHit` flag is
dropped). -/
structure ChatRecordMessage where
  id : Nat
  senderName : String
  senderPlatformId : String
  senderAliases : List String
  senderAvatar : Option String
  content : String
  timestamp : Int
  type : Nat
  replyToMessageId : Option String
  replyToContent : Option String
  replyToSenderName : Option String
deriving DecidableEq, Repr

/-- The reactive state of PreviewPanel.vue that the block navigation state
machine owns: `props.result`, `selectedBlockIndex`, `isBlockSwitching` and
`pendingScrollToMessageId`. -/
structure PreviewState where
  result : Option FilterResult
  selectedBlockIndex : Nat
  isBlockSwitching : Bool
  pendingScrollToMessageId : Option Nat
deriving DecidableEq, Repr

/-- PreviewPanel.vue `blockCount`: `props.result?.blocks.length ?? 0`. -/
def blockCount (result : Option FilterResult) : Nat :=
  match result with
  | none => 0
  | some r => r.blocks.length

/-- PreviewPanel.vue `getBlockAtReversedIndex`: `originalIndex` is
`blocks.length - 1 - index` computed in ordinary (signed) arithmetic; a
JavaScript array read at a negative position yields `undefined`, which the
`if 0 ≤ originalIndex` guard together with `List.get?` renders as `none`. -/
def getBlockAtReversedIndex (result : Option FilterResult) (index : Nat) : Option Block :=
  match result with
  | none => none
  | some r =>
    let originalIndex : Int := (r.blocks.length : Int) - 1 - (index : Int)
    if 0 ≤ originalIndex then r.blocks.get? originalIndex.toNat else none

/-- The field-by-field copy performed inside `currentBlockMessages`
(every field of the source message except `isHit`). -/
def toChatRecordMessage (msg : Message) : ChatRecordMessage :=
  { id := msg.id
    senderName := msg.senderName
    senderPlatformId := msg.senderPlatformId
    senderAliases := msg.senderAliases
    senderAvatar := msg.senderAvatar
    content := msg.content
    timestamp := msg.timestamp
    type := msg.type
    replyToMessageId := msg.replyToMessageId
    replyToContent := msg.replyToContent
    replyToSenderName := msg.replyToSenderName }

/-- PreviewPanel.vue `currentBlockMessages`: empty when there is no block,
otherwise the reversed-index block's messages, shape-normalized. -/
def currentBlockMessages (result : Option FilterResult) (selectedBlockIndex : Nat) :
    List ChatRecordMessage :=
  if blockCount result = 0 then []
  else
    match getBlockAtReversedIndex result selectedBlockIndex with
    | none => []
    | some block => block.messages.map toChatRecordMessage

/-- PreviewPanel.vue `hitMessageIds`: ids of the active block's messages whose
`isHit` flag is set, in block order. -/
def hitMessageIds (result : Option FilterResult) (selectedBlockIndex : Nat) : List Nat :=
  if blockCount result = 0 then []
  else
    match getBlockAtReversedIndex result selectedBlockIndex with
    | none => []
    | some block => (block.messages.filter (fun msg => msg.isHit)).map (fun msg => msg.id)

/-- PreviewPanel.vue `selectBlock`: sets `selectedBlockIndex` to `index`; if the
reversed-index block exists and contains a hit message, records the first hit
message's id in `pendingScrollToMessageId`. There is no else branch in the
source: when the block has no hit message the pending id is left as it was. -/
def selectBlock (s : PreviewState) (index : Nat) : PreviewState :=
  match getBlockAtReversedIndex s.result index with
  | some block =>
    match block.messages.find? (fun msg => msg.isHit) with
    | some firstHitMessage =>
      { s with selectedBlockIndex := index
               pendingScrollToMessageId := some firstHitMessage.id }
    | none => { s with selectedBlockIndex := index }
  | none => { s with selectedBlockIndex := index }

/-- PreviewPanel.vue `goToNextBlock`: bail out while `isBlockSwitching`, with no
result, or on the last block; otherwise raise the lock, advance the index and
schedule the 300 ms release timer (the timer itself is a separate event; the
index-pane scroll command is a pure view effect and carries no machine state). -/
def goToNextBlock (s : PreviewState) : PreviewState :=
  if s.isBlockSwitching then s
  else if blockCount s.result = 0 then s
  else if s.selectedBlockIndex < blockCount s.result - 1 then
    { s with isBlockSwitching := true
             selectedBlockIndex := s.selectedBlockIndex + 1 }
  else s

/-- PreviewPanel.vue `watch(() => props.result, ...)`: on any result
replacement, `selectedBlockIndex` becomes 0 and `pendingScrollToMessageId`
becomes null. The watcher does not touch `isBlockSwitching`. -/
def replaceResult (s : PreviewState) (newResult : Option FilterResult) : PreviewState :=
  { s with result := newResult
           selectedBlockIndex := 0
           pendingScrollToMessageId := none }

/-- N consecutive `goToNextBlock` triggers with no intervening timer expiry
(i.e. all arriving within one debounce window). -/
def iterateAdvance : Nat → PreviewState → PreviewState
  | 0, s => s
  | n + 1, s => iterateAdvance n (goToNextBlock s)

/-- Token status colour of the FilterTab (SessionPanel.vue, FilterTab segment). -/
inductive TokenStatus where
  | green
  | yellow
  | red
deriving DecidableEq, Repr

/-- FilterTab `estimatedTokens`: 0 without a result, otherwise
`Math.ceil(stats.totalChars * 1.5)`. `totalChars` is a natural number, so the
ceiling of `3·c/2` is exactly `(3·c + 1) / 2` in truncating natural division
(proved against the rational ceiling in `specEstimatedTokens_eq`). -/
def estimatedTokens (result : Option FilterResult) : Nat :=
  match result with
  | none => 0
  | some r => (3 * r.stats.totalChars + 1) / 2

/-- The spec's wording of the token estimate, kept separate for comparison:
the ceiling of `totalChars * 1.5` computed over the rationals. -/
def specEstimatedTokens (totalChars : Nat) : Nat :=
  Nat.ceil ((totalChars : ℚ) * (3 / 2))

/-- FilterTab `tokenStatus`: green below 50000 estimated tokens, yellow below
100000, red otherwise. -/
def tokenStatus (result : Option FilterResult) : TokenStatus :=
  if estimatedTokens result < 50000 then TokenStatus.green
  else if estimatedTokens result < 100000 then TokenStatus.yellow
  else TokenStatus.red

/-- SessionPanel.vue `selectDate`, abstracted over the id list that
`getSessionIdsForDate(date)` produces for the clicked day: when every id of the
group is already selected the whole group is removed from the selection set,
otherwise the whole group is added (the source copies the set, mutates the
copy and stores it back; the resulting set is the same). -/
def selectDate (sessionIds : List Nat) (s : Finset Nat) : Finset Nat :=
  if sessionIds.all (fun i => decide (i ∈ s)) then
    sessionIds.foldl (fun acc i => acc.erase i) s
  else
    sessionIds.foldl (fun acc i => insert i acc) s

/-- SessionPanel.vue `isDateFullySelected`, abstracted over the same id list:
`sessionIds.length > 0 && sessionIds.every((id) => selectedSet.has(id))`. -/
def isDateFullySelected (sessionIds : List Nat) (s : Finset Nat) : Bool :=
  decide (0 < sessionIds.length) && sessionIds.all (fun i => decide (i ∈ s))

/-- Modelled from the spec: `MessageList.scrollToMessage` (MessageList.vue is
not among the sources here, only its caller is). Per the spec, "a scroll
command arriving for a block that is no longer active must be silently
dropped": the content pane scrolls only when the requested id is among the
messages it currently displays. -/
def scrollToMessageApplies (currentIds : List Nat) (target : Nat) : Bool :=
  currentIds.contains target

/-- One `scrollToMessage` command issued to the content pane by the 100 ms
timer of `watch(pendingScrollToMessageId)`, logged with the captured target
id, the value of the pending target at fire time, the ids of the messages the
pane displayed at fire time, and whether the pane actually scrolled. -/
structure ScrollEvent where
  target : Nat
  pendingAtFire : Option Nat
  activeIds : List Nat
  applied : Bool
deriving DecidableEq, Repr

/-- Full state of the cross-pane synchronizer: the PreviewPanel reactive state
plus the captured ids of the in-flight 100 ms scroll timers and the log of
issued scroll commands. (An in-flight 300 ms advance-release timer exists
exactly while `isBlockSwitching` is set, so it needs no extra field.) -/
structure SyncState where
  prev : PreviewState
  scrollTimers : List Nat
  scrollLog : List ScrollEvent
deriving DecidableEq, Repr

/-- The events of the event loop that touch the synchronizer: a user click on
an index-pane row, a result replacement, a content-pane reached-bottom signal,
expiry of the k-th in-flight scroll timer, and expiry of the 300 ms
advance-release timer. -/
inductive SyncEvent where
  | selectBlockEv (i : Nat)
  | replaceResultEv (r : Option FilterResult)
  | reachBottomEv
  | scrollTimerFireEv (k : Nat)
  | switchTimerFireEv
deriving Repr

/-- Vue watcher semantics of writing `pendingScrollToMessageId`: the watch
callback fires only when the value actually changes, and schedules the
(nextTick + 100 ms) scroll timer, capturing the written id, only when the new
value is non-null. -/
def setPendingScroll (st : SyncState) (v : Option Nat) : SyncState :=
  if v = st.prev.pendingScrollToMessageId then st
  else
    match v with
    | some m =>
      { st with prev := { st.prev with pendingScrollToMessageId := some m }
                scrollTimers := st.scrollTimers ++ [m] }
    | none => { st with prev := { st.prev with pendingScrollToMessageId := none } }

/-- One step of the single-threaded event loop. `selectBlockEv` runs
`selectBlock` and then the pending-id watcher; `replaceResultEv` runs the
result watcher (whose write of null schedules nothing); `scrollTimerFireEv k`
runs the k-th timer callback, which calls `scrollToMessage` with the captured
id — without re-reading `pendingScrollToMessageId` — and then nulls the
pending id; `switchTimerFireEv` is the 300 ms release of `isBlockSwitching`. -/
def syncStep (st : SyncState) (e : SyncEvent) : SyncState :=
  match e with
  | SyncEvent.selectBlockEv i =>
    let p := selectBlock st.prev i
    if p.pendingScrollToMessageId = st.prev.pendingScrollToMessageId then
      { st with prev := p }
    else
      match p.pendingScrollToMessageId with
      | some m => { st with prev := p, scrollTimers := st.scrollTimers ++ [m] }
      | none => { st with prev := p }
  | SyncEvent.replaceResultEv r => { st with prev := replaceResult st.prev r }
  | SyncEvent.reachBottomEv => { st with prev := goToNextBlock st.prev }
  | SyncEvent.scrollTimerFireEv k =>
    match st.scrollTimers.get? k with
    | none => st
    | some target =>
      let ids := (currentBlockMessages st.prev.result st.prev.selectedBlockIndex).map
        (fun m => m.id)
      let entry : ScrollEvent :=
        { target := target
          pendingAtFire := st.prev.pendingScrollToMessageId
          activeIds := ids
          applied := scrollToMessageApplies ids target }
      let st1 : SyncState :=
        { st with scrollTimers := st.scrollTimers.eraseIdx k
                  scrollLog := st.scrollLog ++ [entry] }
      setPendingScroll st1 none
  | SyncEvent.switchTimerFireEv =>
    { st with prev := { st.prev with isBlockSwitching := false } }

/-- Run a whole event trace. -/
def runTrace (st : SyncState) (events : List SyncEvent) : SyncState :=
  events.foldl syncStep st

/-- A hit message with id 5 (all display-only fields blank). -/
def demoMsgHit : Message :=
  { id := 5, senderName := "", senderPlatformId := "", senderAliases := []
    senderAvatar := none, content := "", timestamp := 0, type := 0
    replyToMessageId := none, replyToContent := none, replyToSenderName := none
    isHit := true }

/-- A non-hit message with id 7. -/
def demoMsgMiss : Message :=
  { id := 7, senderName := "", senderPlatformId := "", senderAliases := []
    senderAvatar := none, content := "", timestamp := 0, type := 0
    replyToMessageId := none, replyToContent := none, replyToSenderName := none
    isHit := false }

/-- A non-hit message that shares id 5 (the same underlying chat message,
returned again by a later filter execution as a context message). -/
def demoMsgCtx : Message :=
  { id := 5, senderName := "", senderPlatformId := "", senderAliases := []
    senderAvatar := none, content := "", timestamp := 0, type := 0
    replyToMessageId := none, replyToContent := none, replyToSenderName := none
    isHit := false }

/-- A block holding the single hit message id 5. -/
def demoBlockHit : Block :=
  { startTs := 100, endTs := 200, messages := [demoMsgHit], hitCount := 1 }

/-- A block holding only the non-hit message id 7. -/
def demoBlockMiss : Block :=
  { startTs := 300, endTs := 400, messages := [demoMsgMiss], hitCount := 0 }

/-- A block of a later result that contains message id 5 as context. -/
def demoBlockCtx : Block :=
  { startTs := 500, endTs := 600, messages := [demoMsgCtx], hitCount := 0 }

/-- A one-block result whose block contains the hit message id 5. -/
def demoResultA : FilterResult :=
  { blocks := [demoBlockHit], stats := { totalMessages := 1, hitMessages := 1, totalChars := 0 } }

/-- A replacement result whose displayed block contains message id 5. -/
def demoResultB : FilterResult :=
  { blocks := [demoBlockCtx], stats := { totalMessages := 1, hitMessages := 0, totalChars := 0 } }

/-- A two-block result. -/
def demoResultTwo : FilterResult :=
  { blocks := [demoBlockHit, demoBlockMiss]
    stats := { totalMessages := 2, hitMessages := 1, totalChars := 0 } }

/-- A one-block result whose block has no hit messages. -/
def demoResultNoHit : FilterResult :=
  { blocks := [demoBlockMiss], stats := { totalMessages := 1, hitMessages := 0, totalChars := 0 } }

/-- Idle state with the two-block result loaded and the first row selected. -/
def demoIdleState : PreviewState :=
  { result := some demoResultTwo, selectedBlockIndex := 0
    isBlockSwitching := false, pendingScrollToMessageId := none }

/-- A state caught mid-advance: the machine is Advancing and a scroll target
is pending. -/
def demoAdvancingState : PreviewState :=
  { result := some demoResultTwo, selectedBlockIndex := 1
    isBlockSwitching := true, pendingScrollToMessageId := some 5 }

/-- Idle state on the no-hit result with a leftover pending scroll target. -/
def demoPendingState : PreviewState :=
  { result := some demoResultNoHit, selectedBlockIndex := 0
    isBlockSwitching := false, pendingScrollToMessageId := some 99 }

/-- Idle state on the one-block result (its only block is also its last). -/
def demoLastState : PreviewState :=
  { result := some demoResultA, selectedBlockIndex := 0
    isBlockSwitching := false, pendingScrollToMessageId := none }

/-- Synchronizer start state: result A loaded, nothing pending. -/
def demoSyncInit : SyncState :=
  { prev := { result := some demoResultA, selectedBlockIndex := 0
              isBlockSwitching := false, pendingScrollToMessageId := none }
    scrollTimers := [], scrollLog := [] }

/-- The stale-scroll interleaving: the user selects the block with hit id 5,
the result is replaced before the 100 ms scroll timer fires, then the timer
fires. -/
def demoStaleTrace : List SyncEvent :=
  [SyncEvent.selectBlockEv 0,
   SyncEvent.replaceResultEv (some demoResultB),
   SyncEvent.scrollTimerFireEv 0]

/-- A FilterResult carrying only a character count (for the token policy). -/
def mkCharsResult (c : Nat) : FilterResult :=
  { blocks := [], stats := { totalMessages := 0, hitMessages := 0, totalChars := c } }

/-- A trigger arriving while the machine is Advancing is dropped outright. -/
lemma goToNextBlock_of_advancing (s : PreviewState) (h : s.isBlockSwitching = true) :
    goToNextBlock s = s := by
  simp [goToNextBlock, h]

/-- While Advancing, any number of further triggers leave the state fixed. -/
lemma iterateAdvance_of_advancing (n : Nat) (s : PreviewState)
    (h : s.isBlockSwitching = true) : iterateAdvance n s = s := by
  induction n with
  | zero => rfl
  | succ n ih => simp [iterateAdvance, goToNextBlock_of_advancing s h, ih]

/-- C9: whenever the machine is already Advancing, or there is no result
(block count 0), or the active block is already the last one, `goToNextBlock`
leaves the whole navigation state unchanged; in particular the index keeps its
value and the machine does not transition to Advancing. -/
theorem advance_guard_noop (s : PreviewState)
    (h : s.isBlockSwitching = true ∨ blockCount s.result = 0
       ∨ s.selectedBlockIndex = blockCount s.result - 1) :
    goToNextBlock s = s := by
  rcases h with h | h | h
  · simp [goToNextBlock, h]
  · by_cases hb : s.isBlockSwitching
    · simp [goToNextBlock, hb]
    · simp [goToNextBlock, hb, h]
  · by_cases hb : s.isBlockSwitching
    · simp [goToNextBlock, hb]
    · by_cases h0 : blockCount s.result = 0
      · simp [goToNextBlock, hb, h0]
      · have hlt : ¬ s.selectedBlockIndex < blockCount s.result - 1 := by omega
        simp [goToNextBlock, hb, h0, hlt]

/-- C9 witness: on a one-block result the active block is the last block, and
a reached-bottom trigger changes nothing. -/
theorem advance_guard_noop_witness : goToNextBlock demoLastState = demoLastState :=
  advance_guard_noop demoLastState (Or.inr (Or.inr (by decide)))

/-- C2: N ≥ 1 reached-bottom triggers inside a single debounce window (no
timer expiry in between), starting Idle with a result of at least two blocks
and the active block not the last, advance ActiveBlockIndex by exactly 1 — the
first trigger advances and raises the Advancing lock, all later triggers are
dropped. -/
theorem advance_debounce_single_increment (n : Nat) (s : PreviewState)
    (hn : 1 ≤ n) (hidle : s.isBlockSwitching = false)
    (hblocks : 2 ≤ blockCount s.result)
    (hnotlast : s.selectedBlockIndex < blockCount s.result - 1) :
    (iterateAdvance n s).selectedBlockIndex = s.selectedBlockIndex + 1
    ∧ (iterateAdvance n s).isBlockSwitching = true := by
  obtain ⟨m, rfl⟩ : ∃ m, n = m + 1 := ⟨n - 1, by omega⟩
  have h0 : ¬ blockCount s.result = 0 := by omega
  have hstep : goToNextBlock s =
      { s with isBlockSwitching := true
               selectedBlockIndex := s.selectedBlockIndex + 1 } := by
    simp [goToNextBlock, hidle, h0, hnotlast]
  have : iterateAdvance (m + 1) s = iterateAdvance m (goToNextBlock s) := rfl
  rw [this, hstep, iterateAdvance_of_advancing m _ rfl]
  exact ⟨rfl, rfl⟩

/-- C2 witness: five rapid triggers on a two-block result advance the index
from 0 to 1, not to 5. -/
theorem advance_debounce_single_increment_witness :
    (iterateAdvance 5 demoIdleState).selectedBlockIndex = 1 :=
  (advance_debounce_single_increment 5 demoIdleState (by decide) (by decide)
    (by decide) (by decide)).1

/-- C3 counterexample: starting from an Advancing state, replacing the result
does reset the index and the pending target, but the machine is still
Advancing afterwards — the watcher never touches `isBlockSwitching`, so the
claimed forced transition to Idle does not happen. -/
theorem reset_leaves_advancing_counterexample :
    ¬ ((replaceResult demoAdvancingState none).selectedBlockIndex = 0
      ∧ (replaceResult demoAdvancingState none).pendingScrollToMessageId = none
      ∧ (replaceResult demoAdvancingState none).isBlockSwitching = false) := by
  decide

/-- C3 as amended: replacing the FilterResult always resets ActiveBlockIndex
to 0 and clears the pending scroll target, regardless of prior state, but it
leaves the Advancing flag exactly as it was — the machine returns to Idle only
when the in-flight 300 ms settle timer expires. -/
theorem reset_clears_index_and_target (s : PreviewState) (r : Option FilterResult) :
    (replaceResult s r).result = r
    ∧ (replaceResult s r).selectedBlockIndex = 0
    ∧ (replaceResult s r).pendingScrollToMessageId = none
    ∧ (replaceResult s r).isBlockSwitching = s.isBlockSwitching :=
  ⟨rfl, rfl, rfl, rfl⟩

/-- C10: for any out-of-range selected index — in particular a stale index
kept after the result shrank, and for the null result or a zero-block result
(whose block count makes every index out of range) — the block lookup returns
`none` rather than faulting, and both derived projections evaluate to the
empty list instead of failing. -/
theorem projection_totality (result : Option FilterResult) (index : Nat)
    (h : blockCount result ≤ index) :
    getBlockAtReversedIndex result index = none
    ∧ currentBlockMessages result index = []
    ∧ hitMessageIds result index = [] := by
  cases result with
  | none => exact ⟨rfl, rfl, rfl⟩
  | some r =>
    have hlen : r.blocks.length ≤ index := h
    have hneg : ¬ (0 : Int) ≤ (r.blocks.length : Int) - 1 - (index : Int) := by omega
    have hg : getBlockAtReversedIndex (some r) index = none := by
      simp only [getBlockAtReversedIndex]
      rw [if_neg hneg]
    refine ⟨hg, ?_, ?_⟩
    · simp [currentBlockMessages, hg]
    · simp [hitMessageIds, hg]

/-- C10 witness: with the one-block result loaded, index 5 is out of range and
every projection degenerates gracefully. -/
theorem projection_totality_witness :
    getBlockAtReversedIndex (some demoResultA) 5 = none
    ∧ currentBlockMessages (some demoResultA) 5 = []
    ∧ hitMessageIds (some demoResultA) 5 = [] :=
  projection_totality (some demoResultA) 5 (by decide)

/-- C1: evaluation of the code on the stale-scroll interleaving. The user
selects the block whose first hit is message 5 (arming the 100 ms timer with
captured id 5); the result is then replaced — clearing the pending target —
before the timer fires; the new result's displayed block contains message 5 as
a context message. When the timer fires, its callback passes the captured id
to `scrollToMessage` without re-checking `pendingScrollToMessageId`, and the
content pane — which per the spec drops only ids absent from the displayed
block — scrolls: the log records a command whose target 5 was no longer the
pending target (`pendingAtFire = none`) yet was applied (`applied = true`) to
the replacement result's block. The claimed drop of stale scroll commands does
not happen. -/
theorem stale_scroll_applied_on_replacement :
    (runTrace demoSyncInit demoStaleTrace).scrollLog.map
        (fun e => (e.target, e.pendingAtFire, e.activeIds, e.applied))
      = [(5, none, [5], true)]
    ∧ (runTrace demoSyncInit demoStaleTrace).prev.result = some demoResultB := by
  constructor
  · rfl
  · rfl

/-- C6 counterexample: `totalChars = 33333` gives
`ceil(33333 * 1.5) = ceil(49999.5) = 50000`, which is not below 50000, so the
status is yellow — not green as the claim states. -/
theorem token_boundary_33333_counterexample :
    ¬ (estimatedTokens (some (mkCharsResult 33333)) < 50000
      ∧ tokenStatus (some (mkCharsResult 33333)) = TokenStatus.green) := by
  decide

/-- C6 as amended: with the 1.5 multiplier and ceiling rounding,
`totalChars = 33333` yields 50000 estimated tokens and status yellow (green
requires `totalChars ≤ 33332`, giving at most 49998 tokens);
`totalChars = 33334` yields 50001 and yellow; `totalChars = 66667` yields
100001 and red while 66666 yields 99999 and yellow — the status boundaries sit
at exactly 50000 and 100000 tokens. -/
theorem token_boundary_cases :
    estimatedTokens (some (mkCharsResult 33333)) = 50000
    ∧ tokenStatus (some (mkCharsResult 33333)) = TokenStatus.yellow
    ∧ estimatedTokens (some (mkCharsResult 33332)) = 49998
    ∧ tokenStatus (some (mkCharsResult 33332)) = TokenStatus.green
    ∧ estimatedTokens (some (mkCharsResult 33334)) = 50001
    ∧ tokenStatus (some (mkCharsResult 33334)) = TokenStatus.yellow
    ∧ estimatedTokens (some (mkCharsResult 66667)) = 100001
    ∧ tokenStatus (some (mkCharsResult 66667)) = TokenStatus.red
    ∧ estimatedTokens (some (mkCharsResult 66666)) = 99999
    ∧ tokenStatus (some (mkCharsResult 66666)) = TokenStatus.yellow := by
  decide

/-- C4 counterexample: selecting a block that has no hit messages while a
scroll target is still pending leaves the stale target in place — the source
has no clearing branch, so the pending target does not become null as the
claim states. -/
theorem selectBlock_no_hit_keeps_target_counterexample :
    ¬ (selectBlock demoPendingState 0).pendingScrollToMessageId = none := by
  decide

/-- C4 as amended: `selectBlock(i)` always sets ActiveBlockIndex to `i` and
never touches the result; when the reversed-index block `i` contains a hit
message, its first hit message's id becomes the pending scroll target; when
block `i` has no hit messages the pending scroll target is left unchanged —
it is not cleared. -/
theorem selectBlock_sets_index_and_first_hit_target (s : PreviewState) (i : Nat) :
    (selectBlock s i).selectedBlockIndex = i
    ∧ (selectBlock s i).result = s.result
    ∧ (∀ block m, getBlockAtReversedIndex s.result i = some block →
        block.messages.find? (fun x => x.isHit) = some m →
        (selectBlock s i).pendingScrollToMessageId = some m.id)
    ∧ (∀ block, getBlockAtReversedIndex s.result i = some block →
        block.messages.find? (fun x => x.isHit) = none →
        (selectBlock s i).pendingScrollToMessageId = s.pendingScrollToMessageId) := by
  refine ⟨?_, ?_, ?_, ?_⟩
  · unfold selectBlock
    split
    · split <;> rfl
    · rfl
  · unfold selectBlock
    split
    · split <;> rfl
    · rfl
  · intro block m hb hf
    simp [selectBlock, hb, hf]
  · intro block hb hf
    simp [selectBlock, hb, hf]

/-- C4 witness: on the no-hit result, selecting row 0 keeps the leftover
pending target 99 untouched. -/
theorem selectBlock_sets_index_and_first_hit_target_witness :
    (selectBlock demoPendingState 0).pendingScrollToMessageId
      = demoPendingState.pendingScrollToMessageId :=
  (selectBlock_sets_index_and_first_hit_target demoPendingState 0).2.2.2
    demoBlockMiss (by decide) (by decide)

/-- For an in-range index-pane position, the reversed lookup is exactly the
storage-order read at `blocks.length - 1 - p`. -/
lemma getBlockAtReversedIndex_eq (r : FilterResult) (p : Nat) (hp : p < r.blocks.length) :
    getBlockAtReversedIndex (some r) p = r.blocks.get? (r.blocks.length - 1 - p) := by
  have h1 : (0 : Int) ≤ (r.blocks.length : Int) - 1 - (p : Int) := by omega
  have h2 : ((r.blocks.length : Int) - 1 - (p : Int)).toNat = r.blocks.length - 1 - p := by
    omega
  simp only [getBlockAtReversedIndex]
  rw [if_pos h1, h2]

/-- C5: reversal invariant. For every loaded result and every index-pane
position `p` in range, the displayed block is the storage-order block
`blocks[blockCount - 1 - p]`; after selecting position `p` the active block
read back through the machine is that same block (so in particular its start
timestamp is `blocks[blockCount - 1 - p].startTs`), and both derived
projections are computed from it. -/
theorem reversed_index_invariant (r : FilterResult) (s : PreviewState) (p : Nat)
    (hp : p < r.blocks.length) (hs : s.result = some r) :
    ∃ block : Block,
      r.blocks.get? (r.blocks.length - 1 - p) = some block
      ∧ getBlockAtReversedIndex (some r) p = some block
      ∧ (selectBlock s p).selectedBlockIndex = p
      ∧ getBlockAtReversedIndex (selectBlock s p).result (selectBlock s p).selectedBlockIndex
          = some block
      ∧ (getBlockAtReversedIndex (selectBlock s p).result
          (selectBlock s p).selectedBlockIndex).map Block.startTs = some block.startTs
      ∧ currentBlockMessages (some r) p = block.messages.map toChatRecordMessage
      ∧ hitMessageIds (some r) p
          = (block.messages.filter (fun m => m.isHit)).map (fun m => m.id) := by
  have hlt : r.blocks.length - 1 - p < r.blocks.length := by omega
  obtain ⟨block, hget⟩ : ∃ b, r.blocks.get? (r.blocks.length - 1 - p) = some b :=
    ⟨r.blocks.get ⟨r.blocks.length - 1 - p, hlt⟩, List.get?_eq_get hlt⟩
  have hrev : getBlockAtReversedIndex (some r) p = some block := by
    rw [getBlockAtReversedIndex_eq r p hp, hget]
  have hidx : (selectBlock s p).selectedBlockIndex = p :=
    (selectBlock_sets_index_and_first_hit_target s p).1
  have hres : (selectBlock s p).result = s.result :=
    (selectBlock_sets_index_and_first_hit_target s p).2.1
  have hcnt : ¬ blockCount (some r) = 0 := by
    simp only [blockCount]
    omega
  refine ⟨block, hget, hrev, hidx, ?_, ?_, ?_, ?_⟩
  · rw [hres, hs, hidx, hrev]
  · rw [hres, hs, hidx, hrev]
    rfl
  · simp [currentBlockMessages, hcnt, hrev]
  · simp [hitMessageIds, hcnt, hrev]

/-- C5 witness: on the two-block result, index-pane position 1 maps to storage
block 0 (the block holding hit message 5, start timestamp 100). -/
theorem reversed_index_invariant_witness :
    ∃ block : Block,
      demoResultTwo.blocks.get? (demoResultTwo.blocks.length - 1 - 1) = some block
      ∧ getBlockAtReversedIndex (some demoResultTwo) 1 = some block
      ∧ (selectBlock demoIdleState 1).selectedBlockIndex = 1
      ∧ getBlockAtReversedIndex (selectBlock demoIdleState 1).result
          (selectBlock demoIdleState 1).selectedBlockIndex = some block
      ∧ (getBlockAtReversedIndex (selectBlock demoIdleState 1).result
          (selectBlock demoIdleState 1).selectedBlockIndex).map Block.startTs
          = some block.startTs
      ∧ currentBlockMessages (some demoResultTwo) 1
          = block.messages.map toChatRecordMessage
      ∧ hitMessageIds (some demoResultTwo) 1
          = (block.messages.filter (fun m => m.isHit)).map (fun m => m.id) :=
  reversed_index_invariant demoResultTwo demoIdleState 1 (by decide) rfl

/-- The integer form of the token estimate agrees with the spec's rational
ceiling: for a natural character count `c`, `ceil(c * 1.5) = (3c + 1) / 2`. -/
lemma specEstimatedTokens_eq (c : Nat) : specEstimatedTokens c = (3 * c + 1) / 2 := by
  unfold specEstimatedTokens
  rcases Nat.even_or_odd c with ⟨k, hk⟩ | ⟨k, hk⟩
  · subst hk
    have h1 : ((k + k : Nat) : ℚ) * (3 / 2) = ((3 * k : Nat) : ℚ) := by
      push_cast
      ring
    rw [h1, Nat.ceil_natCast]
    omega
  · subst hk
    have hrhs : (3 * (2 * k + 1) + 1) / 2 = 3 * k + 2 := by omega
    rw [hrhs]
    have h2 : (3 * k + 2 : Nat) ≠ 0 := by omega
    rw [Nat.ceil_eq_iff h2]
    constructor
    · push_cast
      nlinarith [sq_nonneg ((k : ℚ))]
    · push_cast
      nlinarith [sq_nonneg ((k : ℚ))]

/-- C7: for every FilterResult, the estimated token count is the ceiling of
`stats.totalChars * 1.5`, and the status is green exactly below 50000 tokens,
yellow exactly on [50000, 100000), and red exactly from 100000 on. -/
theorem token_policy_spec (r : FilterResult) :
    estimatedTokens (some r) = specEstimatedTokens r.stats.totalChars
    ∧ (tokenStatus (some r) = TokenStatus.green ↔ estimatedTokens (some r) < 50000)
    ∧ (tokenStatus (some r) = TokenStatus.yellow ↔
        50000 ≤ estimatedTokens (some r) ∧ estimatedTokens (some r) < 100000)
    ∧ (tokenStatus (some r) = TokenStatus.red ↔ 100000 ≤ estimatedTokens (some r)) := by
  refine ⟨(specEstimatedTokens_eq r.stats.totalChars).symm, ?_, ?_, ?_⟩ <;>
    · unfold tokenStatus
      split
      · simp_all <;> omega
      · split <;> simp_all

/-- Membership after batch insertion: folding `insert` over a group adds
exactly the group. -/
lemma mem_foldl_insert (ids : List Nat) (s : Finset Nat) (j : Nat) :
    j ∈ ids.foldl (fun acc i => insert i acc) s ↔ j ∈ s ∨ j ∈ ids := by
  induction ids generalizing s with
  | nil => simp
  | cons a t ih =>
    simp only [List.foldl_cons, ih, Finset.mem_insert, List.mem_cons]
    tauto

/-- Membership after batch removal: folding `erase` over a group removes
exactly the group. -/
lemma mem_foldl_erase (ids : List Nat) (s : Finset Nat) (j : Nat) :
    j ∈ ids.foldl (fun acc i => acc.erase i) s ↔ j ∈ s ∧ ¬ j ∈ ids := by
  induction ids generalizing s with
  | nil => simp
  | cons a t ih =>
    simp only [List.foldl_cons, ih, Finset.mem_erase, List.mem_cons]
    tauto

/-- C8 counterexample: group selection is not idempotent. Starting from the
empty selection, one `selectDate` on the group `[1]` selects it, but the
second call finds the group fully selected and toggles it off again — the two
results differ, refuting the claimed idempotence of calling it twice. -/
theorem selectDate_not_idempotent_counterexample :
    selectDate [1] (selectDate [1] (∅ : Finset Nat)) ≠ selectDate [1] (∅ : Finset Nat) := by
  decide

/-- C8 as amended: `selectDate` is a toggle, not a plain select. When not
every id of the group is selected it adds the whole group — after which
`isDateFullySelected` holds for a non-empty group — and when every id is
already selected it removes the whole group; `isDateFullySelected(ids)` is
true iff the group is non-empty and every id of it is selected (in particular
vacuously false for an empty group); consequently two successive calls are not
idempotent. -/
theorem selectDate_toggle_spec (ids : List Nat) (s : Finset Nat) :
    (isDateFullySelected ids s = true ↔ ids ≠ [] ∧ ∀ i ∈ ids, i ∈ s)
    ∧ ((¬ ∀ i ∈ ids, i ∈ s) → ∀ j, j ∈ selectDate ids s ↔ (j ∈ s ∨ j ∈ ids))
    ∧ ((∀ i ∈ ids, i ∈ s) → ∀ j, j ∈ selectDate ids s ↔ (j ∈ s ∧ ¬ j ∈ ids))
    ∧ (ids ≠ [] → (¬ ∀ i ∈ ids, i ∈ s) →
        isDateFullySelected ids (selectDate ids s) = true) := by
  have hall : ids.all (fun i => decide (i ∈ s)) = true ↔ ∀ i ∈ ids, i ∈ s := by
    simp [List.all_eq_true]
  refine ⟨?_, ?_, ?_, ?_⟩
  · simp [isDateFullySelected, List.all_eq_true, List.length_pos]
  · intro h j
    have hfalse : ids.all (fun i => decide (i ∈ s)) = false := by
      rcases Bool.eq_false_or_eq_true (ids.all (fun i => decide (i ∈ s))) with ht | hf
      · exact absurd (hall.1 ht) h
      · exact hf
    rw [selectDate, hfalse]
    simp [mem_foldl_insert]
  · intro h j
    rw [selectDate, if_pos (hall.2 h)]
    exact mem_foldl_erase ids s j
  · intro hne h
    have hfalse : ids.all (fun i => decide (i ∈ s)) = false := by
      rcases Bool.eq_false_or_eq_true (ids.all (fun i => decide (i ∈ s))) with ht | hf
      · exact absurd (hall.1 ht) h
      · exact hf
    rw [selectDate, hfalse]
    simp only [Bool.false_eq_true, if_false, isDateFullySelected, Bool.and_eq_true,
      decide_eq_true_eq, List.all_eq_true, List.length_pos]
    exact ⟨hne, fun i hi => (mem_foldl_insert ids s i).2 (Or.inr hi)⟩

/-- C8 witness: selecting the group `[1]` from the empty selection makes the
group fully selected. -/
theorem selectDate_toggle_spec_witness :
    isDateFullySelected [1] (selectDate [1] (∅ : Finset Nat)) = true :=
  (selectDate_toggle_spec [1] (∅ : Finset Nat)).2.2.2 (by decide) (by decide)
